import Mathlib

/-!
Shallow embedding of `nuclear_gauge_simulator.py` (class `TroxlerGaugeSimulator`).

Modelling conventions:
* Python floats appearing in the batch generator (compaction/moisture sampling,
  one-decimal rounding, clamping) are modelled as rationals `ℚ`: every value
  manipulated there is produced by decimal literals, field operations and
  `round(..., 1)`, so `ℚ` keeps those computations exact and executable.
* The reading pipeline (`calculate_density_count` / `calculate_moisture_count`)
  involves `measurement_time ** 0.5`, `np.sin` and `np.cos`, so it is modelled
  over `ℝ` with `Real.sqrt`, `Real.sin`, `Real.cos`.
* The pseudo-random draws are explicit parameters: `gauss` stands for the value
  returned by `np.random.normal(...)` and `jitter` for `random.choice([-1,0,1])`.
  Nothing below constrains them, so every theorem quantifies over all draws.
* Two Python failure modes are reflected by `Option`:
  - for `measurement_time < 0`, the Python semantics of `measurement_time ** 0.5` is a complex
    number (negative base, fractional exponent), and the later
    `int(base_count * randomization)` raises `TypeError`;
  - in `calculate_density_count`, `np.random.normal(1.0, cv_adjusted)` raises
    `ValueError` when its scale `cv_adjusted = 0.06 * (1 + dry_density / 1000)`
    is negative, i.e. when `dry_density < -1000`.
  Either way the call does not return, which the embedding renders as `none`.
* the Python semantics of `int(...)` truncates toward zero (`truncInt`); `round(x, 1)` rounds
  half to even (`roundHE`, `round1`).
* The unbounded `while ... in used_values` de-duplication loops of
  `generate_sample_tests` take explicit fuel; exhausted fuel yields `none`
  (the Python loop would simply not have terminated yet).
-/

/-- the Python semantics of `int(x)` on a float: truncation toward zero. -/
noncomputable def truncInt (x : ℝ) : ℤ :=
  if 0 ≤ x then ⌊x⌋ else ⌈x⌉

/-- the Python semantics of `round(x)` on a real value: round half to even (bankers rounding). -/
def roundHE (x : ℚ) : ℤ :=
  if x - ⌊x⌋ < 1 / 2 then ⌊x⌋
  else if 1 / 2 < x - ⌊x⌋ then ⌊x⌋ + 1
  else if ⌊x⌋ % 2 = 0 then ⌊x⌋ else ⌊x⌋ + 1

/-- the Python semantics of `round(x, 1)`: round to one decimal place, half to even. -/
def round1 (x : ℚ) : ℚ :=
  roundHE (x * 10) / 10

/-- `max lo (min hi x)`, the clamping idiom used throughout the source. -/
def clampQ (lo hi x : ℚ) : ℚ :=
  max lo (min hi x)

/-- Per-soil density calibration row: `{"intercept": ..., "slope": ...}`. -/
structure SoilParams where
  intercept : ℚ
  slope : ℚ
  deriving DecidableEq

/-- The instance attributes set in `TroxlerGaugeSimulator.__init__`.  The
soil tables are identical for every instance (they are built from literals in
`__init__`), so they live at top level below. -/
structure TroxlerGaugeSimulator where
  model : String
  serial_number : String
  calibration_date : String
  std_density_count : ℝ
  std_moisture_count : ℝ

/-- `self.soil_density_equations`: UCSC soil classification with calibrated
intercept/slope coefficients for the density count regression. -/
def soil_density_equations : List (String × SoilParams) :=
  [("GW (Well-graded gravel)", ⟨3200, -18.5⟩),
   ("GP (Poorly graded gravel)", ⟨3150, -18.0⟩),
   ("GM (Silty gravel)", ⟨4000, -25.0⟩),
   ("GC (Clayey gravel)", ⟨4100, -26.0⟩),
   ("SW (Well-graded sand)", ⟨3150, -17.0⟩),
   ("SP (Poorly graded sand)", ⟨3100, -16.5⟩),
   ("SM (Silty sand)", ⟨5800, -42.0⟩),
   ("SC (Clayey sand)", ⟨5000, -35.0⟩),
   ("ML (Silt)", ⟨4500, -31.0⟩),
   ("CL (Lean clay)", ⟨4200, -29.0⟩),
   ("OL (Organic silt/clay, low plasticity)", ⟨4600, -32.0⟩),
   ("MH (Elastic silt)", ⟨4400, -30.0⟩),
   ("CH (Fat clay)", ⟨4300, -29.5⟩),
   ("OH (Organic silt/clay, high plasticity)", ⟨4700, -33.0⟩),
   ("PT (Peat)", ⟨5000, -35.0⟩),
   ("Type II (Aggregate Base)", ⟨4000, -25.0⟩),
   ("Asphalt", ⟨3000, -16.0⟩),
   ("Concrete", ⟨2800, -15.0⟩)]

/-- `self.soil_moisture_factors`: per-soil moisture count scaling factors. -/
def soil_moisture_factors : List (String × ℚ) :=
  [("GW (Well-graded gravel)", 1.0),
   ("GP (Poorly graded gravel)", 1.0),
   ("GM (Silty gravel)", 1.1),
   ("GC (Clayey gravel)", 1.1),
   ("SW (Well-graded sand)", 1.0),
   ("SP (Poorly graded sand)", 1.0),
   ("SM (Silty sand)", 1.2),
   ("SC (Clayey sand)", 1.2),
   ("ML (Silt)", 1.3),
   ("CL (Lean clay)", 1.3),
   ("OL (Organic silt/clay, low plasticity)", 1.4),
   ("MH (Elastic silt)", 1.35),
   ("CH (Fat clay)", 1.35),
   ("OH (Organic silt/clay, high plasticity)", 1.4),
   ("PT (Peat)", 1.5),
   ("Type II (Aggregate Base)", 1.1),
   ("Asphalt", 0.9),
   ("Concrete", 0.8)]

/-- The default gauge: `TroxlerGaugeSimulator()` with all constructor defaults
(`model="3440"`, `serial_number="12345"`, standard counts 1570 and 670). -/
def gaugeDefault : TroxlerGaugeSimulator :=
  ⟨"3440", "12345", "2024-09-15", 1570, 670⟩

/-- The value called `base_count` in `calculate_density_count` just before the
randomization block: linear regression, depth-mode adjustment, measurement-time
adjustment and standard-count scaling, in source order. -/
noncomputable def density_base_params (g : TroxlerGaugeSimulator) (p : SoilParams)
    (dry_density : ℝ) (depth : String) (measurement_time : ℝ) (gauge_depth : ℝ) : ℝ :=
  let base0 : ℝ := (p.intercept : ℝ) + (p.slope : ℝ) * dry_density
  let base1 : ℝ :=
    if depth = "BS" then base0 * 1.15
    else base0 * (1.0 + (gauge_depth - 6) * 0.01)
  let base2 : ℝ := base1 * Real.sqrt measurement_time
  base2 * (g.std_density_count / 1570)

/-- Body of `calculate_density_count` once the soil parameters have been
looked up: the randomization block applied to `density_base_params`.
`gauss` is the realized `np.random.normal(1.0, cv_adjusted)` draw and
`jitter` the realized `random.choice([-1, 0, 1])`. -/
noncomputable def density_count_core (g : TroxlerGaugeSimulator) (p : SoilParams)
    (dry_density : ℝ) (depth : String) (measurement_time : ℝ) (gauge_depth : ℝ)
    (gauss : ℝ) (jitter : ℤ) : Option ℤ :=
  let base_count : ℝ := density_base_params g p dry_density depth measurement_time gauge_depth
  let cv_adjusted : ℝ := 0.06 * (1 + dry_density / 1000)
  let uniqueness_factor : ℝ := Real.sin (dry_density * 0.1) * 0.03
  if cv_adjusted < 0 ∨ measurement_time < 0 then none
  else
    let randomization : ℝ := max 0.85 (min 1.15 (gauss + uniqueness_factor))
    let count : ℤ := truncInt (base_count * randomization) + jitter
    some (max 500 (min count 2000))

/-- `TroxlerGaugeSimulator.calculate_density_count`.  The `wet_density`
parameter is accepted (second positional argument) but never used, exactly as
in the source. -/
noncomputable def calculate_density_count (g : TroxlerGaugeSimulator)
    (dry_density wet_density : ℝ) (depth : String) (measurement_time : ℝ)
    (soil_type : String) (gauge_depth : ℝ) (gauss : ℝ) (jitter : ℤ) : Option ℤ :=
  density_count_core g
    ((List.lookup soil_type soil_density_equations).getD ⟨4986, -34.6⟩)
    dry_density depth measurement_time gauge_depth gauss jitter

/-- The value called `base_count` in `calculate_moisture_count` just before the
randomization block. -/
noncomputable def moisture_base (g : TroxlerGaugeSimulator) (soil_factor : ℚ)
    (moisture_content : ℝ) (measurement_time : ℝ) : ℝ :=
  let base0 : ℝ := 50 + 9.5 * moisture_content * (soil_factor : ℝ)
  let base1 : ℝ := base0 * Real.sqrt measurement_time
  base1 * (g.std_moisture_count / 670)

/-- Body of `calculate_moisture_count` once the soil factor has been looked
up. -/
noncomputable def moisture_count_core (g : TroxlerGaugeSimulator) (soil_factor : ℚ)
    (moisture_content : ℝ) (measurement_time : ℝ) (gauss : ℝ) (jitter : ℤ) : Option ℤ :=
  let base_count : ℝ := moisture_base g soil_factor moisture_content measurement_time
  let uniqueness_factor : ℝ := Real.cos (moisture_content * 0.2) * 0.04
  if measurement_time < 0 then none
  else
    let randomization : ℝ := max 0.82 (min 1.18 (gauss + uniqueness_factor))
    let count : ℤ := truncInt (base_count * randomization) + jitter
    some (max 50 (min count 500))

/-- `TroxlerGaugeSimulator.calculate_moisture_count`. -/
noncomputable def calculate_moisture_count (g : TroxlerGaugeSimulator)
    (moisture_content : ℝ) (measurement_time : ℝ) (soil_type : String)
    (gauss : ℝ) (jitter : ℤ) : Option ℤ :=
  moisture_count_core g
    ((List.lookup soil_type soil_moisture_factors).getD 1.0)
    moisture_content measurement_time gauss jitter

/-- `o` is `some k` for a `k` in `[lo, hi]` (how a clamped count return is
stated without an existential). -/
def returnsIntIn (lo hi : ℤ) : Option ℤ → Prop
  | none => False
  | some k => lo ≤ k ∧ k ≤ hi

/-- One row of the table returned by `generate_sample_tests`, in source
order: `Test #`, `Density Count`, `Moisture Count`, `Wet Density (pcf)`,
`Dry Density (pcf)`, `Moisture (lbs/ft3)`, `Moisture (%)`, `Compaction (%)`,
`Done`. -/
structure TestRecord where
  test_num : ℕ
  density_count : ℤ
  moisture_count : ℤ
  wet_density : ℚ
  dry_density : ℚ
  moisture_lbs : ℚ
  moisture_pct : ℚ
  compaction_pct : ℚ
  done : Bool

/-- The `while value in used_values` de-duplication loop of
`generate_sample_tests`, for one sampled value `c`: while `c` collides with an
already-used value, set `c := clamp lo hi (round1 (c + u))` where `u` is the
next `random.uniform(-0.2, 0.2)` draw from the stream `us`.  `fuel` bounds the
number of iterations (the Python loop is unbounded); on success the remaining
uniform stream is returned alongside the final value. -/
def dedupOne (lo hi : ℚ) : ℕ → (ℕ → ℚ) → ℚ → List ℚ → Option (ℚ × (ℕ → ℚ))
  | 0, us, c, used => if c ∈ used then none else some (c, us)
  | fuel + 1, us, c, used =>
      if c ∈ used then
        dedupOne lo hi fuel (fun n => us (n + 1)) (clampQ lo hi (round1 (c + us 0))) used
      else some (c, us)

/-- Runs `dedupOne` over a list of initially sampled values, accumulating the
`used_values` set (as a list) exactly as the Python loops do: each finalized
value is added to `used` before the next value is processed. -/
def dedupList (lo hi : ℚ) (fuel : ℕ) : List ℚ → (ℕ → ℚ) → List ℚ → Option (List ℚ × (ℕ → ℚ))
  | [], us, _used => some ([], us)
  | c :: cs, us, used =>
      (dedupOne lo hi fuel us c used).bind fun p =>
        (dedupList lo hi fuel cs p.2 (p.1 :: used)).bind fun q =>
          some (p.1 :: q.1, q.2)

/-- The record-assembly loop of `generate_sample_tests` (`for i in
range(1, num_tests + 1)`): derives dry/wet density and moisture mass from the
sampled compaction and moisture lists and calls the two reading functions.
`cr` supplies, per test index, the realized random draws
`(density gauss, density jitter, moisture gauss, moisture jitter)`. -/
noncomputable def buildRecords (g : TroxlerGaugeSimulator) (mdd : ℚ) (depth_mode : String)
    (test_duration : ℝ) (soil_type : String) (gauge_depth : ℝ)
    (cr : ℕ → ℝ × ℤ × ℝ × ℤ) : ℕ → List ℚ → List ℚ → Option (List TestRecord)
  | _, [], _ => some []
  | _, _ :: _, [] => some []
  | i, c :: cs, m :: ms =>
      let dry_density := round1 (c / 100 * mdd)
      let wet_density := round1 (dry_density * (1 + m / 100))
      let moisture_lbs := round1 (wet_density - dry_density)
      (calculate_density_count g (dry_density : ℝ) (wet_density : ℝ) depth_mode
          test_duration soil_type gauge_depth (cr i).1 (cr i).2.1).bind fun dc =>
        (calculate_moisture_count g (m : ℝ) test_duration soil_type
            (cr i).2.2.1 (cr i).2.2.2).bind fun mc =>
          (buildRecords g mdd depth_mode test_duration soil_type gauge_depth cr
              (i + 1) cs ms).bind fun rest =>
            some ({ test_num := i, density_count := dc, moisture_count := mc,
                    wet_density := wet_density, dry_density := dry_density,
                    moisture_lbs := moisture_lbs, moisture_pct := m,
                    compaction_pct := c, done := false } :: rest)

/-- `TroxlerGaugeSimulator.generate_sample_tests`.  `cn`/`mn` are the streams
of realized `np.random.normal` draws for compaction and moisture sampling,
`cu`/`mu` the corresponding `random.uniform(-0.2, 0.2)` streams consumed by the
de-duplication loops, and `cr` the per-record reading draws.  Compaction values
are sampled as `round(max(95, min(98, draw)), 1)`, moisture values as
`round(max(opt - 2, min(opt + 2, draw)), 1)`, then each list is de-duplicated
before the records are assembled. -/
noncomputable def generate_sample_tests (g : TroxlerGaugeSimulator) (max_dry_density optimum_moisture : ℚ)
    (num_tests : ℕ) (depth_mode : String) (test_duration : ℝ) (soil_type : String)
    (gauge_depth : ℝ) (cn cu mn mu : ℕ → ℚ) (cr : ℕ → ℝ × ℤ × ℝ × ℤ)
    (fuel : ℕ) : Option (List TestRecord) :=
  (dedupList 95 98 fuel
      ((List.range num_tests).map fun i => round1 (clampQ 95 98 (cn i))) cu []).bind
    fun pc =>
      (dedupList (optimum_moisture - 2) (optimum_moisture + 2) fuel
          ((List.range num_tests).map fun i =>
            round1 (clampQ (optimum_moisture - 2) (optimum_moisture + 2) (mn i))) mu []).bind
        fun pm =>
          buildRecords g max_dry_density depth_mode test_duration soil_type gauge_depth cr
            1 pc.1 pm.1

-- Sanity examples while the file grows.
example : (List.lookup "CL (Lean clay)" soil_density_equations) = some ⟨4200, -29.0⟩ := by rfl
example : (List.lookup "Unknown soil" soil_density_equations) = none := by rfl
example : round1 (193 / 2) = 193 / 2 := by norm_num [round1, roundHE]
example : round1 (503 / 50) = 101 / 10 := by norm_num [round1, roundHE]
example : roundHE (5 / 2) = 2 := by norm_num [roundHE]
example : roundHE (7 / 2) = 4 := by norm_num [roundHE]
example : roundHE (-5 / 2) = -2 := by norm_num [roundHE]

/-! ### Rounding lemmas -/

lemma roundHE_le (x : ℚ) : (roundHE x : ℚ) ≤ x + 1 / 2 := by
  have h1 : (⌊x⌋ : ℚ) ≤ x := Int.floor_le x
  unfold roundHE
  split_ifs with ha hb hc
  · push_cast; linarith
  · push_cast; linarith
  · push_cast; linarith
  · rw [not_lt] at ha; push_cast; linarith

lemma le_roundHE (x : ℚ) : x - 1 / 2 ≤ (roundHE x : ℚ) := by
  have h2 : x < ⌊x⌋ + 1 := Int.lt_floor_add_one x
  unfold roundHE
  split_ifs with ha hb hc
  · push_cast; linarith
  · push_cast; linarith
  · rw [not_lt] at hb; push_cast; linarith
  · push_cast; linarith

lemma roundHE_intCast (k : ℤ) : roundHE (k : ℚ) = k := by
  unfold roundHE
  rw [Int.floor_intCast]
  norm_num

lemma round1_int_div (k : ℤ) : round1 ((k : ℚ) / 10) = (k : ℚ) / 10 := by
  unfold round1
  rw [div_mul_cancel₀ _ (by norm_num : (10 : ℚ) ≠ 0), roundHE_intCast]

lemma round1_eq_int_div (x : ℚ) : ∃ k : ℤ, round1 x = (k : ℚ) / 10 :=
  ⟨roundHE (x * 10), rfl⟩

lemma round1_le {x hi : ℚ} (k : ℤ) (hk : hi = (k : ℚ) / 10) (h : x ≤ hi) :
    round1 x ≤ hi := by
  have h1 : (roundHE (x * 10) : ℚ) ≤ x * 10 + 1 / 2 := roundHE_le _
  have h2 : x * 10 ≤ (k : ℚ) := by rw [hk] at h; linarith
  have h4 : roundHE (x * 10) ≤ k := by
    by_contra hlt
    push_neg at hlt
    have h5 : (k : ℚ) + 1 ≤ (roundHE (x * 10) : ℚ) := by
      exact_mod_cast Int.add_one_le_iff.mpr hlt
    linarith
  rw [hk]
  unfold round1
  gcongr

lemma le_round1 {x lo : ℚ} (k : ℤ) (hk : lo = (k : ℚ) / 10) (h : lo ≤ x) :
    lo ≤ round1 x := by
  have h1 : x * 10 - 1 / 2 ≤ (roundHE (x * 10) : ℚ) := le_roundHE _
  have h2 : (k : ℚ) ≤ x * 10 := by rw [hk] at h; linarith
  have h4 : k ≤ roundHE (x * 10) := by
    by_contra hlt
    push_neg at hlt
    have h5 : (roundHE (x * 10) : ℚ) + 1 ≤ (k : ℚ) := by
      exact_mod_cast Int.add_one_le_iff.mpr hlt
    linarith
  rw [hk]
  unfold round1
  gcongr

lemma clampQ_le {lo hi x : ℚ} (h : lo ≤ hi) : clampQ lo hi x ≤ hi :=
  max_le h (min_le_left _ _)

lemma le_clampQ (lo hi x : ℚ) : lo ≤ clampQ lo hi x :=
  le_max_left _ _

/-! ### The reading functions return clamped integers on well-formed inputs -/

lemma density_count_core_some (g : TroxlerGaugeSimulator) (p : SoilParams)
    (d : ℝ) (depth : String) (t gd gauss : ℝ) (j : ℤ)
    (ht : 0 ≤ t) (hd : -1000 ≤ d) :
    ∃ k, density_count_core g p d depth t gd gauss j = some k ∧ 500 ≤ k ∧ k ≤ 2000 := by
  unfold density_count_core
  rw [if_neg]
  · exact ⟨_, rfl, le_max_left _ _, max_le (by norm_num) (min_le_right _ _)⟩
  · rintro (hcv | hts)
    · have : (0 : ℝ) ≤ 0.06 * (1 + d / 1000) := by nlinarith
      linarith
    · linarith

lemma moisture_count_core_some (g : TroxlerGaugeSimulator) (f : ℚ)
    (m t gauss : ℝ) (j : ℤ) (ht : 0 ≤ t) :
    ∃ k, moisture_count_core g f m t gauss j = some k ∧ 50 ≤ k ∧ k ≤ 500 := by
  unfold moisture_count_core
  rw [if_neg (by linarith : ¬ t < 0)]
  exact ⟨_, rfl, le_max_left _ _, max_le (by norm_num) (min_le_right _ _)⟩

lemma calculate_density_count_some (g : TroxlerGaugeSimulator) (d w : ℝ)
    (depth : String) (t : ℝ) (s : String) (gd gauss : ℝ) (j : ℤ)
    (ht : 0 ≤ t) (hd : -1000 ≤ d) :
    ∃ k, calculate_density_count g d w depth t s gd gauss j = some k ∧
      500 ≤ k ∧ k ≤ 2000 :=
  density_count_core_some g _ d depth t gd gauss j ht hd

lemma calculate_moisture_count_some (g : TroxlerGaugeSimulator) (m t : ℝ)
    (s : String) (gauss : ℝ) (j : ℤ) (ht : 0 ≤ t) :
    ∃ k, calculate_moisture_count g m t s gauss j = some k ∧ 50 ≤ k ∧ k ≤ 500 :=
  moisture_count_core_some g _ m t gauss j ht

lemma density_count_none_of_neg_time (g : TroxlerGaugeSimulator) (p : SoilParams)
    (d : ℝ) (depth : String) (t gd gauss : ℝ) (j : ℤ) (ht : t < 0) :
    density_count_core g p d depth t gd gauss j = none := by
  unfold density_count_core
  rw [if_pos (Or.inr ht)]

lemma moisture_count_none_of_neg_time (g : TroxlerGaugeSimulator) (f : ℚ)
    (m t gauss : ℝ) (j : ℤ) (ht : t < 0) :
    moisture_count_core g f m t gauss j = none := by
  unfold moisture_count_core
  rw [if_pos ht]

/-! ### Scaling lemmas for the pre-perturbation bases -/

lemma density_base_sqrt_scale (g : TroxlerGaugeSimulator) (p : SoilParams)
    (d : ℝ) (depth : String) (gd t : ℝ) :
    density_base_params g p d depth t gd =
      Real.sqrt t * density_base_params g p d depth 1 gd := by
  simp only [density_base_params, Real.sqrt_one]
  split_ifs <;> ring

lemma moisture_base_sqrt_scale (g : TroxlerGaugeSimulator) (f : ℚ) (m t : ℝ) :
    moisture_base g f m t = Real.sqrt t * moisture_base g f m 1 := by
  simp only [moisture_base, Real.sqrt_one]
  ring

lemma abs_sqrt_mul_lt {A t1 t2 : ℝ} (hA : A ≠ 0) (h0 : 0 ≤ t1) (h12 : t1 < t2) :
    |Real.sqrt t1 * A| < |Real.sqrt t2 * A| := by
  rw [abs_mul, abs_mul, abs_of_nonneg (Real.sqrt_nonneg _),
    abs_of_nonneg (Real.sqrt_nonneg _)]
  exact mul_lt_mul_of_pos_right (Real.sqrt_lt_sqrt h0 h12) (abs_pos.mpr hA)

/-! ### Claims C1, C3, C4, C7, C8, C10 -/

/-- Claim C1, amended: for every input whose measurement duration is
nonnegative and whose dry density is at least -1000 (so that the Gaussian
scale `cv_adjusted` is nonnegative), `calculate_density_count` returns an
integer in `[500, 2000]` and `calculate_moisture_count` returns an integer in
`[50, 500]`, for any soil type, depth mode, gauge depth, standard counts and
random draws. -/
theorem c1_counts_clamped (g : TroxlerGaugeSimulator) (d w : ℝ) (depth : String)
    (t : ℝ) (s : String) (gd gauss : ℝ) (j : ℤ) (m gauss2 : ℝ) (j2 : ℤ)
    (ht : 0 ≤ t) (hd : -1000 ≤ d) :
    returnsIntIn 500 2000 (calculate_density_count g d w depth t s gd gauss j) ∧
    returnsIntIn 50 500 (calculate_moisture_count g m t s gauss2 j2) := by
  obtain ⟨k1, e1, hk1⟩ := calculate_density_count_some g d w depth t s gd gauss j ht hd
  obtain ⟨k2, e2, hk2⟩ := calculate_moisture_count_some g m t s gauss2 j2 ht
  rw [e1, e2]
  exact ⟨hk1, hk2⟩

theorem c1_counts_clamped_witness :
    returnsIntIn 500 2000
      (calculate_density_count gaugeDefault 100 110 "DS" 1 "CL (Lean clay)" 8 1 0) ∧
    returnsIntIn 50 500
      (calculate_moisture_count gaugeDefault 10 1 "CL (Lean clay)" 1 0) :=
  c1_counts_clamped gaugeDefault 100 110 "DS" 1 "CL (Lean clay)" 8 1 0 10 1 0
    (by norm_num) (by norm_num)

/-- Claim C1 as stated is false: with a negative measurement duration the
Python code raises (complex `** 0.5` result, then `int()` of a complex raises
`TypeError`), and with a dry density below -1000 the density reading raises
(`np.random.normal` with a negative scale raises `ValueError`); no integer is
returned at all. -/
theorem c1_counts_counterexample :
    calculate_moisture_count gaugeDefault 10 (-1) "CL (Lean clay)" 1 0 = none ∧
    calculate_density_count gaugeDefault (-2000) 0 "DS" 1 "SP (Poorly graded sand)" 8 1 0 =
      none := by
  constructor
  · exact moisture_count_none_of_neg_time _ _ _ _ _ _ (by norm_num)
  · simp only [calculate_density_count, density_count_core]
    rw [if_pos (Or.inl (by norm_num))]

/-- Claim C3: for a soil type absent from both calibration tables, the two
reading functions behave identically to calls that use the fallback
coefficients (intercept 4986, slope -34.6, moisture factor 1.0), for the same
random draws; in particular neither function fails on the unknown soil type. -/
theorem c3_unknown_soil_defaults (g : TroxlerGaugeSimulator) (soil_type : String)
    (h1 : List.lookup soil_type soil_density_equations = none)
    (h2 : List.lookup soil_type soil_moisture_factors = none)
    (d w : ℝ) (depth : String) (t gd gauss : ℝ) (j : ℤ)
    (m t2 gauss2 : ℝ) (j2 : ℤ) :
    calculate_density_count g d w depth t soil_type gd gauss j =
      density_count_core g ⟨4986, -34.6⟩ d depth t gd gauss j ∧
    calculate_moisture_count g m t2 soil_type gauss2 j2 =
      moisture_count_core g 1.0 m t2 gauss2 j2 := by
  unfold calculate_density_count calculate_moisture_count
  rw [h1, h2]
  exact ⟨rfl, rfl⟩

theorem c3_unknown_soil_defaults_witness :
    calculate_density_count gaugeDefault 100 110 "DS" 1 "Bedrock" 8 1 0 =
      density_count_core gaugeDefault ⟨4986, -34.6⟩ 100 "DS" 1 8 1 0 ∧
    calculate_moisture_count gaugeDefault 10 1 "Bedrock" 1 0 =
      moisture_count_core gaugeDefault 1.0 10 1 1 0 :=
  c3_unknown_soil_defaults gaugeDefault "Bedrock" rfl rfl 100 110 "DS" 1 8 1 0 10 1 1 0

/-- Claim C4: the pre-perturbation value of `calculate_density_count` (the
`base_count` reaching the randomization block) equals
`(intercept + slope * dry_density)` times 1.15 for backscatter or
`1 + (gauge_depth - 6) * 0.01` otherwise, times `sqrt(measurement_time)`,
times `std_density_count / 1570`, where intercept and slope are the
coefficients looked up for the soil type (with the documented fallback). -/
theorem c4_density_base_formula (g : TroxlerGaugeSimulator) (soil_type : String)
    (d : ℝ) (depth : String) (t gd : ℝ) :
    density_base_params g
        ((List.lookup soil_type soil_density_equations).getD ⟨4986, -34.6⟩)
        d depth t gd =
      ((((List.lookup soil_type soil_density_equations).getD ⟨4986, -34.6⟩).intercept : ℝ) +
          (((List.lookup soil_type soil_density_equations).getD ⟨4986, -34.6⟩).slope : ℝ) * d) *
        (if depth = "BS" then 1.15 else 1 + (gd - 6) * 0.01) *
        Real.sqrt t * (g.std_density_count / 1570) := by
  simp only [density_base_params]
  split_ifs <;> norm_num <;> ring

/-- Claim C7, amended: for every numeric input with nonnegative measurement
duration (and, for the density reading, dry density at least -1000), both
reading functions complete and return a value. -/
theorem c7_no_crash (g : TroxlerGaugeSimulator) (d w : ℝ) (depth : String)
    (t : ℝ) (s : String) (gd gauss : ℝ) (j : ℤ) (m gauss2 : ℝ) (j2 : ℤ)
    (ht : 0 ≤ t) (hd : -1000 ≤ d) :
    (calculate_density_count g d w depth t s gd gauss j).isSome = true ∧
    (calculate_moisture_count g m t s gauss2 j2).isSome = true := by
  obtain ⟨k1, e1, -⟩ := calculate_density_count_some g d w depth t s gd gauss j ht hd
  obtain ⟨k2, e2, -⟩ := calculate_moisture_count_some g m t s gauss2 j2 ht
  rw [e1, e2]
  exact ⟨rfl, rfl⟩

theorem c7_no_crash_witness :
    (calculate_density_count gaugeDefault 95 105 "BS" 4 "SM (Silty sand)" 6 1 1).isSome =
      true ∧
    (calculate_moisture_count gaugeDefault 12 4 "SM (Silty sand)" 1 1).isSome = true :=
  c7_no_crash gaugeDefault 95 105 "BS" 4 "SM (Silty sand)" 6 1 1 12 1 1
    (by norm_num) (by norm_num)

/-- Claim C7 as stated is false: a negative measurement duration makes the
Python density reading raise a `TypeError` (the `** 0.5` of a negative number
is complex, and `int()` of a complex value raises), so the call does not
complete. -/
theorem c7_no_crash_counterexample :
    calculate_density_count gaugeDefault 100 110 "DS" (-1) "CL (Lean clay)" 8 1 0 =
      none := by
  unfold calculate_density_count
  exact density_count_none_of_neg_time _ _ _ _ _ _ _ _ (by norm_num)

/-- Claim C8, amended: for durations `0 ≤ t1 < t2` with all other inputs held
fixed, and provided the duration-independent prefactor (the pre-clamp base at
duration 1) is nonzero, the pre-clamp base magnitude of each reading function
is strictly larger at `t2` than at `t1`; the base scales exactly by the factor
`sqrt(duration)`. -/
theorem c8_sqrt_scaling (g : TroxlerGaugeSimulator) (p : SoilParams) (f : ℚ)
    (d : ℝ) (depth : String) (gd m : ℝ) (t1 t2 : ℝ)
    (h0 : 0 ≤ t1) (h12 : t1 < t2)
    (hA : density_base_params g p d depth 1 gd ≠ 0)
    (hB : moisture_base g f m 1 ≠ 0) :
    |density_base_params g p d depth t1 gd| < |density_base_params g p d depth t2 gd| ∧
    |moisture_base g f m t1| < |moisture_base g f m t2| ∧
    density_base_params g p d depth t2 gd =
      Real.sqrt t2 * density_base_params g p d depth 1 gd ∧
    moisture_base g f m t2 = Real.sqrt t2 * moisture_base g f m 1 := by
  refine ⟨?_, ?_, density_base_sqrt_scale g p d depth gd t2,
    moisture_base_sqrt_scale g f m t2⟩
  · rw [density_base_sqrt_scale g p d depth gd t1,
      density_base_sqrt_scale g p d depth gd t2]
    exact abs_sqrt_mul_lt hA h0 h12
  · rw [moisture_base_sqrt_scale g f m t1, moisture_base_sqrt_scale g f m t2]
    exact abs_sqrt_mul_lt hB h0 h12

theorem c8_sqrt_scaling_witness :
    |density_base_params gaugeDefault ⟨4200, -29.0⟩ 100 "DS" 1 8| <
      |density_base_params gaugeDefault ⟨4200, -29.0⟩ 100 "DS" 4 8| ∧
    |moisture_base gaugeDefault 1.3 10 1| < |moisture_base gaugeDefault 1.3 10 4| ∧
    density_base_params gaugeDefault ⟨4200, -29.0⟩ 100 "DS" 4 8 =
      Real.sqrt 4 * density_base_params gaugeDefault ⟨4200, -29.0⟩ 100 "DS" 1 8 ∧
    moisture_base gaugeDefault 1.3 10 4 = Real.sqrt 4 * moisture_base gaugeDefault 1.3 10 1 :=
  c8_sqrt_scaling gaugeDefault ⟨4200, -29.0⟩ 1.3 100 "DS" 8 10 1 4
    (by norm_num) (by norm_num)
    (by
      simp only [density_base_params, gaugeDefault, Real.sqrt_one]
      rw [if_neg (by decide : ¬ ("DS" = "BS"))]
      norm_num)
    (by simp only [moisture_base, gaugeDefault, Real.sqrt_one]; norm_num)

/-- Claim C8 as stated is false: when the duration-independent prefactor is
zero (here: soil "CL (Lean clay)" with dry density 4200/29, the root of the
calibration line), the pre-clamp base magnitude is 0 at every duration, so it
does not strictly increase from duration 1 to duration 4. -/
theorem c8_sqrt_scaling_counterexample :
    ¬ (|density_base_params gaugeDefault
          ((List.lookup "CL (Lean clay)" soil_density_equations).getD ⟨4986, -34.6⟩)
          (4200 / 29) "DS" 1 8| <
        |density_base_params gaugeDefault
          ((List.lookup "CL (Lean clay)" soil_density_equations).getD ⟨4986, -34.6⟩)
          (4200 / 29) "DS" 4 8|) := by
  have hp : (List.lookup "CL (Lean clay)" soil_density_equations).getD
      (⟨4986, -34.6⟩ : SoilParams) = ⟨4200, -29.0⟩ := rfl
  rw [hp]
  have hz : ∀ t : ℝ, density_base_params gaugeDefault ⟨4200, -29.0⟩ (4200 / 29) "DS" t 8 = 0 := by
    intro t
    simp only [density_base_params, gaugeDefault]
    rw [if_neg (by decide : ¬ ("DS" = "BS"))]
    have e : ((4200 : ℚ) : ℝ) + ((-29.0 : ℚ) : ℝ) * ((4200 : ℝ) / 29) = 0 := by norm_num
    rw [e, zero_mul, zero_mul, zero_mul]
  rw [hz 1, hz 4]
  exact lt_irrefl _

/-- Claim C10: the `wet_density` argument of `calculate_density_count` never
influences the returned count: two calls differing only in `wet_density`
return the same result for the same random draws. -/
theorem c10_wet_density_unused (g : TroxlerGaugeSimulator) (d w1 w2 : ℝ)
    (depth : String) (t : ℝ) (s : String) (gd gauss : ℝ) (j : ℤ) :
    calculate_density_count g d w1 depth t s gd gauss j =
      calculate_density_count g d w2 depth t s gd gauss j := rfl

/-! ### Invariants of the de-duplication loops -/

lemma option_bind_some {α β : Type _} (a : α) (f : α → Option β) :
    (some a).bind f = f a := rfl

lemma dedupOne_not_mem {lo hi : ℚ} :
    ∀ {fuel : ℕ} {us : ℕ → ℚ} {c : ℚ} {used : List ℚ} {r : ℚ × (ℕ → ℚ)},
      dedupOne lo hi fuel us c used = some r → r.1 ∉ used := by
  intro fuel
  induction fuel with
  | zero =>
    intro us c used r h
    simp only [dedupOne] at h
    split_ifs at h with hc
    obtain rfl := Option.some.inj h
    exact hc
  | succ fuel ih =>
    intro us c used r h
    simp only [dedupOne] at h
    split_ifs at h with hc
    · exact ih h
    · obtain rfl := Option.some.inj h
      exact hc

lemma dedupOne_range {lo hi : ℚ} (hlh : lo ≤ hi) :
    ∀ {fuel : ℕ} {us : ℕ → ℚ} {c : ℚ} {used : List ℚ} {r : ℚ × (ℕ → ℚ)},
      dedupOne lo hi fuel us c used = some r → lo ≤ c → c ≤ hi →
        lo ≤ r.1 ∧ r.1 ≤ hi := by
  intro fuel
  induction fuel with
  | zero =>
    intro us c used r h h1 h2
    simp only [dedupOne] at h
    split_ifs at h with hc
    obtain rfl := Option.some.inj h
    exact ⟨h1, h2⟩
  | succ fuel ih =>
    intro us c used r h h1 h2
    simp only [dedupOne] at h
    split_ifs at h with hc
    · exact ih h (le_clampQ _ _ _) (clampQ_le hlh)
    · obtain rfl := Option.some.inj h
      exact ⟨h1, h2⟩

lemma dedupList_nodup {lo hi : ℚ} {fuel : ℕ} :
    ∀ {cs : List ℚ} {us : ℕ → ℚ} {used : List ℚ} {r : List ℚ × (ℕ → ℚ)},
      dedupList lo hi fuel cs us used = some r →
        r.1.Nodup ∧ ∀ x ∈ r.1, x ∉ used := by
  intro cs
  induction cs with
  | nil =>
    intro us used r h
    simp only [dedupList, Option.some.injEq] at h
    obtain rfl := h
    exact ⟨List.nodup_nil, by simp⟩
  | cons c cs ih =>
    intro us used r h
    simp only [dedupList, Option.bind_eq_some, Option.some.injEq] at h
    obtain ⟨p, hp, q, hq, rfl⟩ := h
    obtain ⟨hqnd, hqmem⟩ := ih hq
    have hpnot : p.1 ∉ used := dedupOne_not_mem hp
    constructor
    · refine List.nodup_cons.mpr ⟨?_, hqnd⟩
      intro hmem
      exact (hqmem _ hmem) (List.mem_cons_self _ _)
    · intro x hx
      rcases List.mem_cons.mp hx with rfl | hx2
      · exact hpnot
      · intro hxu
        exact (hqmem _ hx2) (List.mem_cons_of_mem _ hxu)

lemma dedupList_range {lo hi : ℚ} (hlh : lo ≤ hi) {fuel : ℕ} :
    ∀ {cs : List ℚ} {us : ℕ → ℚ} {used : List ℚ} {r : List ℚ × (ℕ → ℚ)},
      dedupList lo hi fuel cs us used = some r →
        (∀ c ∈ cs, lo ≤ c ∧ c ≤ hi) → ∀ x ∈ r.1, lo ≤ x ∧ x ≤ hi := by
  intro cs
  induction cs with
  | nil =>
    intro us used r h hcs x hx
    simp only [dedupList, Option.some.injEq] at h
    obtain rfl := h
    simp at hx
  | cons c cs ih =>
    intro us used r h hcs x hx
    simp only [dedupList, Option.bind_eq_some, Option.some.injEq] at h
    obtain ⟨p, hp, q, hq, rfl⟩ := h
    rcases List.mem_cons.mp hx with rfl | hx2
    · exact dedupOne_range hlh hp (hcs c (List.mem_cons_self _ _)).1
        (hcs c (List.mem_cons_self _ _)).2
    · exact ih hq (fun c2 hc2 => hcs c2 (List.mem_cons_of_mem _ hc2)) _ hx2

/-! ### Per-record structure of the assembled batch -/

lemma buildRecords_spec (g : TroxlerGaugeSimulator) (mdd : ℚ) (depth : String)
    (t : ℝ) (s : String) (gd : ℝ) (cr : ℕ → ℝ × ℤ × ℝ × ℤ) :
    ∀ (cs ms : List ℚ) (i : ℕ) (recs : List TestRecord),
      buildRecords g mdd depth t s gd cr i cs ms = some recs →
      (∀ r ∈ recs, r.compaction_pct ∈ cs ∧ r.moisture_pct ∈ ms ∧
        r.dry_density = round1 (r.compaction_pct / 100 * mdd) ∧
        r.wet_density = round1 (r.dry_density * (1 + r.moisture_pct / 100)) ∧
        r.moisture_lbs = round1 (r.wet_density - r.dry_density)) ∧
      (recs.map fun r => r.compaction_pct).Sublist cs ∧
      (recs.map fun r => r.moisture_pct).Sublist ms := by
  intro cs
  induction cs with
  | nil =>
    intro ms i recs h
    simp only [buildRecords, Option.some.injEq] at h
    obtain rfl := h
    simp
  | cons c cs ih =>
    intro ms i recs h
    cases ms with
    | nil =>
      simp only [buildRecords, Option.some.injEq] at h
      obtain rfl := h
      simp
    | cons m ms =>
      simp only [buildRecords, Option.bind_eq_some, Option.some.injEq] at h
      obtain ⟨dc, hdc, mc, hmc, rest, hrest, rfl⟩ := h
      obtain ⟨ihf, ihc, ihm⟩ := ih ms (i + 1) rest hrest
      refine ⟨?_, ?_, ?_⟩
      · intro r hr
        rcases List.mem_cons.mp hr with rfl | hr2
        · exact ⟨List.mem_cons_self _ _, List.mem_cons_self _ _, rfl, rfl, rfl⟩
        · obtain ⟨ha, hb, hc2, hd2, he2⟩ := ihf r hr2
          exact ⟨List.mem_cons_of_mem _ ha, List.mem_cons_of_mem _ hb, hc2, hd2, he2⟩
      · simp only [List.map_cons]
        exact List.Sublist.cons₂ _ ihc
      · simp only [List.map_cons]
        exact List.Sublist.cons₂ _ ihm

/-! ### Claims C2, C5, C6 -/

/-- Claim C2: in every batch that `generate_sample_tests` produces (i.e.
whenever its de-duplication loops terminate), the `compaction_pct` values of
the records are pairwise distinct and the `moisture_pct` values are pairwise
distinct. -/
theorem c2_batch_values_distinct (g : TroxlerGaugeSimulator) (mdd opt : ℚ) (n : ℕ)
    (depth : String) (t : ℝ) (s : String) (gd : ℝ) (cn cu mn mu : ℕ → ℚ)
    (cr : ℕ → ℝ × ℤ × ℝ × ℤ) (fuel : ℕ) (recs : List TestRecord)
    (hgen : generate_sample_tests g mdd opt n depth t s gd cn cu mn mu cr fuel =
      some recs) :
    (recs.map fun r => r.compaction_pct).Nodup ∧
    (recs.map fun r => r.moisture_pct).Nodup := by
  simp only [generate_sample_tests, Option.bind_eq_some] at hgen
  obtain ⟨pc, hpc, pm, hpm, hb⟩ := hgen
  obtain ⟨-, hsubc, hsubm⟩ := buildRecords_spec g mdd depth t s gd cr pc.1 pm.1 1 recs hb
  obtain ⟨hcnd, -⟩ := dedupList_nodup hpc
  obtain ⟨hmnd, -⟩ := dedupList_nodup hpm
  exact ⟨hcnd.sublist hsubc, hmnd.sublist hsubm⟩

/-- Claim C5, amended: every record satisfies
`dry_density = round1(compaction_pct/100 * max_dry_density)`,
`wet_density = round1(dry_density * (1 + moisture_pct/100))` (each rounded to
one decimal as in the source), and `moisture_mass = wet_density - dry_density`
exactly (the extra source-level `round(..., 1)` is the identity on the difference
of two one-decimal values). -/
theorem c5_record_formulas (g : TroxlerGaugeSimulator) (mdd opt : ℚ) (n : ℕ)
    (depth : String) (t : ℝ) (s : String) (gd : ℝ) (cn cu mn mu : ℕ → ℚ)
    (cr : ℕ → ℝ × ℤ × ℝ × ℤ) (fuel : ℕ) (recs : List TestRecord)
    (hgen : generate_sample_tests g mdd opt n depth t s gd cn cu mn mu cr fuel =
      some recs) :
    ∀ r ∈ recs,
      r.dry_density = round1 (r.compaction_pct / 100 * mdd) ∧
      r.wet_density = round1 (r.dry_density * (1 + r.moisture_pct / 100)) ∧
      r.moisture_lbs = r.wet_density - r.dry_density := by
  simp only [generate_sample_tests, Option.bind_eq_some] at hgen
  obtain ⟨pc, hpc, pm, hpm, hb⟩ := hgen
  obtain ⟨hfields, -, -⟩ := buildRecords_spec g mdd depth t s gd cr pc.1 pm.1 1 recs hb
  intro r hr
  obtain ⟨-, -, hdry, hwet, hlbs⟩ := hfields r hr
  refine ⟨hdry, hwet, ?_⟩
  have hdry10 : ∃ kd : ℤ, r.dry_density = (kd : ℚ) / 10 := by
    rw [hdry]; exact round1_eq_int_div _
  have hwet10 : ∃ kw : ℤ, r.wet_density = (kw : ℚ) / 10 := by
    rw [hwet]; exact round1_eq_int_div _
  obtain ⟨kd, ekd⟩ := hdry10
  obtain ⟨kw, ekw⟩ := hwet10
  rw [hlbs, ekw, ekd]
  have e2 : (kw : ℚ) / 10 - (kd : ℚ) / 10 = ((kw - kd : ℤ) : ℚ) / 10 := by
    push_cast; ring
  rw [e2, round1_int_div]

/-- Claim C6, amended: each emitted `compaction_pct` lies in `[95, 98]`,
and - provided the optimum moisture is a one-decimal value, as the UI 0.1
step guarantees - each emitted `moisture_pct` lies in
`[optimum - 2, optimum + 2]`.  (For a non-one-decimal optimum the final
rounding can push `moisture_pct` up to 0.05 outside that window, see the
counterexample.) -/
theorem c6_ranges (g : TroxlerGaugeSimulator) (mdd opt : ℚ) (n : ℕ)
    (depth : String) (t : ℝ) (s : String) (gd : ℝ) (cn cu mn mu : ℕ → ℚ)
    (cr : ℕ → ℝ × ℤ × ℝ × ℤ) (fuel : ℕ) (recs : List TestRecord)
    (hgen : generate_sample_tests g mdd opt n depth t s gd cn cu mn mu cr fuel =
      some recs) :
    (∀ r ∈ recs, 95 ≤ r.compaction_pct ∧ r.compaction_pct ≤ 98) ∧
    ((∃ k : ℤ, opt = (k : ℚ) / 10) →
      ∀ r ∈ recs, opt - 2 ≤ r.moisture_pct ∧ r.moisture_pct ≤ opt + 2) := by
  simp only [generate_sample_tests, Option.bind_eq_some] at hgen
  obtain ⟨pc, hpc, pm, hpm, hb⟩ := hgen
  obtain ⟨hfields, -, -⟩ := buildRecords_spec g mdd depth t s gd cr pc.1 pm.1 1 recs hb
  constructor
  · intro r hr
    obtain ⟨hcmem, -, -, -, -⟩ := hfields r hr
    have hin : ∀ x ∈ (List.range n).map (fun i => round1 (clampQ 95 98 (cn i))),
        95 ≤ x ∧ x ≤ 98 := by
      intro x hx
      simp only [List.mem_map] at hx
      obtain ⟨i, -, rfl⟩ := hx
      exact ⟨le_round1 950 (by norm_num) (le_clampQ _ _ _),
        round1_le 980 (by norm_num) (clampQ_le (by norm_num))⟩
    exact dedupList_range (by norm_num) hpc hin _ hcmem
  · rintro ⟨k, rfl⟩ r hr
    obtain ⟨-, hmmem, -, -, -⟩ := hfields r hr
    have hlo : (k : ℚ) / 10 - 2 = ((k - 20 : ℤ) : ℚ) / 10 := by push_cast; ring
    have hhi : (k : ℚ) / 10 + 2 = ((k + 20 : ℤ) : ℚ) / 10 := by push_cast; ring
    have hin : ∀ x ∈ (List.range n).map
        (fun i => round1 (clampQ ((k : ℚ) / 10 - 2) ((k : ℚ) / 10 + 2) (mn i))),
        (k : ℚ) / 10 - 2 ≤ x ∧ x ≤ (k : ℚ) / 10 + 2 := by
      intro x hx
      simp only [List.mem_map] at hx
      obtain ⟨i, -, rfl⟩ := hx
      exact ⟨le_round1 (k - 20) hlo (le_clampQ _ _ _),
        round1_le (k + 20) hhi (clampQ_le (by linarith))⟩
    exact dedupList_range (by linarith) hpm hin _ hmmem

/-! ### A concrete singleton batch -/

lemma buildRecords_one (g : TroxlerGaugeSimulator) (mdd : ℚ) (depth : String)
    (t : ℝ) (s : String) (gd : ℝ) (cr : ℕ → ℝ × ℤ × ℝ × ℤ) (i : ℕ) (c m : ℚ)
    (ht : 0 ≤ t) (hd : (-1000 : ℝ) ≤ ((round1 (c / 100 * mdd) : ℚ) : ℝ)) :
    ∃ dc mc, buildRecords g mdd depth t s gd cr i [c] [m] =
      some [{ test_num := i, density_count := dc, moisture_count := mc,
              wet_density := round1 (round1 (c / 100 * mdd) * (1 + m / 100)),
              dry_density := round1 (c / 100 * mdd),
              moisture_lbs := round1 (round1 (round1 (c / 100 * mdd) * (1 + m / 100)) -
                round1 (c / 100 * mdd)),
              moisture_pct := m, compaction_pct := c, done := false }] := by
  obtain ⟨dc, hdc, -, -⟩ := calculate_density_count_some g
    ((round1 (c / 100 * mdd) : ℚ) : ℝ)
    ((round1 (round1 (c / 100 * mdd) * (1 + m / 100)) : ℚ) : ℝ)
    depth t s gd (cr i).1 (cr i).2.1 ht hd
  obtain ⟨mc, hmc, -, -⟩ := calculate_moisture_count_some g ((m : ℚ) : ℝ) t s
    (cr i).2.2.1 (cr i).2.2.2 ht
  refine ⟨dc, mc, ?_⟩
  simp only [buildRecords, hdc, hmc, option_bind_some]

lemma generate_one (g : TroxlerGaugeSimulator) (mdd opt : ℚ) (depth : String)
    (t : ℝ) (s : String) (gd : ℝ) (cv mv : ℚ) (cu mu : ℕ → ℚ)
    (cr : ℕ → ℝ × ℤ × ℝ × ℤ) (ht : 0 ≤ t)
    (hd : (-1000 : ℝ) ≤ ((round1 (round1 (clampQ 95 98 cv) / 100 * mdd) : ℚ) : ℝ)) :
    ∃ dc mc,
      generate_sample_tests g mdd opt 1 depth t s gd (fun _ => cv) cu (fun _ => mv) mu
          cr 0 =
        some [{ test_num := 1, density_count := dc, moisture_count := mc,
                wet_density := round1 (round1 (round1 (clampQ 95 98 cv) / 100 * mdd) *
                  (1 + round1 (clampQ (opt - 2) (opt + 2) mv) / 100)),
                dry_density := round1 (round1 (clampQ 95 98 cv) / 100 * mdd),
                moisture_lbs := round1
                  (round1 (round1 (round1 (clampQ 95 98 cv) / 100 * mdd) *
                      (1 + round1 (clampQ (opt - 2) (opt + 2) mv) / 100)) -
                    round1 (round1 (clampQ 95 98 cv) / 100 * mdd)),
                moisture_pct := round1 (clampQ (opt - 2) (opt + 2) mv),
                compaction_pct := round1 (clampQ 95 98 cv), done := false }] := by
  obtain ⟨dc, mc, hb⟩ := buildRecords_one g mdd depth t s gd cr 1
    (round1 (clampQ 95 98 cv)) (round1 (clampQ (opt - 2) (opt + 2) mv)) ht hd
  refine ⟨dc, mc, ?_⟩
  have hred : generate_sample_tests g mdd opt 1 depth t s gd (fun _ => cv) cu
      (fun _ => mv) mu cr 0 =
      buildRecords g mdd depth t s gd cr 1 [round1 (clampQ 95 98 cv)]
        [round1 (clampQ (opt - 2) (opt + 2) mv)] := rfl
  rw [hred, hb]

theorem c2_batch_values_distinct_witness :
    ([round1 (clampQ 95 98 97)] : List ℚ).Nodup ∧
    ([round1 (clampQ (10 - 2) (10 + 2) 10)] : List ℚ).Nodup := by
  obtain ⟨dc, mc, hgen⟩ := generate_one gaugeDefault 110 10 "DS" 1 "CL (Lean clay)" 8
    97 10 (fun _ => 0) (fun _ => 0) (fun _ => (1, 0, 1, 0)) (by norm_num)
    (by norm_num [clampQ, min_def, max_def, round1, roundHE])
  exact c2_batch_values_distinct gaugeDefault 110 10 1 "DS" 1 "CL (Lean clay)" 8
    (fun _ => 97) (fun _ => 0) (fun _ => 10) (fun _ => 0) (fun _ => (1, 0, 1, 0)) 0 _ hgen

theorem c5_record_formulas_witness :
    round1 (round1 (clampQ 95 98 96) / 100 * 100) =
      round1 (round1 (clampQ 95 98 96) / 100 * 100) ∧
    round1 (round1 (round1 (clampQ 95 98 96) / 100 * 100) *
        (1 + round1 (clampQ (8 - 2) (8 + 2) 8) / 100)) =
      round1 (round1 (round1 (clampQ 95 98 96) / 100 * 100) *
        (1 + round1 (clampQ (8 - 2) (8 + 2) 8) / 100)) ∧
    round1 (round1 (round1 (round1 (clampQ 95 98 96) / 100 * 100) *
          (1 + round1 (clampQ (8 - 2) (8 + 2) 8) / 100)) -
        round1 (round1 (clampQ 95 98 96) / 100 * 100)) =
      round1 (round1 (round1 (clampQ 95 98 96) / 100 * 100) *
          (1 + round1 (clampQ (8 - 2) (8 + 2) 8) / 100)) -
        round1 (round1 (clampQ 95 98 96) / 100 * 100) := by
  obtain ⟨dc, mc, hgen⟩ := generate_one gaugeDefault 100 8 "DS" 1 "CL (Lean clay)" 8
    96 8 (fun _ => 0) (fun _ => 0) (fun _ => (1, 0, 1, 0)) (by norm_num)
    (by norm_num [clampQ, min_def, max_def, round1, roundHE])
  exact c5_record_formulas gaugeDefault 100 8 1 "DS" 1 "CL (Lean clay)" 8 (fun _ => 96)
    (fun _ => 0) (fun _ => 8) (fun _ => 0) (fun _ => (1, 0, 1, 0)) 0 _ hgen _
    (List.mem_singleton_self _)

/-- Claim C5 as stated is false: with `max_dry_density = 120` and a sampled
compaction of 95.1 the emitted record has `dry_density = 114.1` (rounded to
one decimal), while `compaction_pct/100 * max_dry_density = 114.12`. -/
theorem c5_record_formulas_counterexample :
    ¬ (∀ recs, generate_sample_tests gaugeDefault 120 8 1 "DS" 1 "CL (Lean clay)" 8
          (fun _ => 951 / 10) (fun _ => 0) (fun _ => 8) (fun _ => 0)
          (fun _ => (1, 0, 1, 0)) 0 =
        some recs →
      ∀ r ∈ recs, r.dry_density = r.compaction_pct / 100 * 120 ∧
        r.wet_density = r.dry_density * (1 + r.moisture_pct / 100) ∧
        r.moisture_lbs = r.wet_density - r.dry_density) := by
  intro hcl
  obtain ⟨dc, mc, hgen⟩ := generate_one gaugeDefault 120 8 "DS" 1 "CL (Lean clay)" 8
    (951 / 10) 8 (fun _ => 0) (fun _ => 0) (fun _ => (1, 0, 1, 0)) (by norm_num)
    (by norm_num [clampQ, min_def, max_def, round1, roundHE])
  have h := (hcl _ hgen _ (List.mem_singleton_self _)).1
  norm_num [clampQ, min_def, max_def, round1, roundHE] at h

theorem c6_ranges_witness :
    ((95 : ℚ) ≤ round1 (clampQ 95 98 96) ∧ round1 (clampQ 95 98 96) ≤ 98) ∧
    ((9 : ℚ) - 2 ≤ round1 (clampQ (9 - 2) (9 + 2) 9) ∧
      round1 (clampQ (9 - 2) (9 + 2) 9) ≤ 9 + 2) := by
  obtain ⟨dc, mc, hgen⟩ := generate_one gaugeDefault 100 9 "DS" 1 "CL (Lean clay)" 8
    96 9 (fun _ => 0) (fun _ => 0) (fun _ => (1, 0, 1, 0)) (by norm_num)
    (by norm_num [clampQ, min_def, max_def, round1, roundHE])
  have h := c6_ranges gaugeDefault 100 9 1 "DS" 1 "CL (Lean clay)" 8 (fun _ => 96)
    (fun _ => 0) (fun _ => 9) (fun _ => 0) (fun _ => (1, 0, 1, 0)) 0 _ hgen
  exact ⟨h.1 _ (List.mem_singleton_self _),
    h.2 ⟨90, by norm_num⟩ _ (List.mem_singleton_self _)⟩

/-- Claim C6 as stated is false: with `optimum_moisture = 8.06` a moisture
draw clamped to the upper bound `10.06` is then rounded to one decimal,
producing a record with `moisture_pct = 10.1 > optimum + 2`. -/
theorem c6_ranges_counterexample :
    ¬ (∀ recs, generate_sample_tests gaugeDefault 120 (403 / 50) 1 "DS" 1
          "CL (Lean clay)" 8 (fun _ => 193 / 2) (fun _ => 0) (fun _ => 100)
          (fun _ => 0) (fun _ => (1, 0, 1, 0)) 0 =
        some recs →
      ∀ r ∈ recs, (95 ≤ r.compaction_pct ∧ r.compaction_pct ≤ 98) ∧
        (403 / 50 - 2 ≤ r.moisture_pct ∧ r.moisture_pct ≤ 403 / 50 + 2)) := by
  intro hcl
  obtain ⟨dc, mc, hgen⟩ := generate_one gaugeDefault 120 (403 / 50) "DS" 1
    "CL (Lean clay)" 8 (193 / 2) 100 (fun _ => 0) (fun _ => 0)
    (fun _ => (1, 0, 1, 0)) (by norm_num)
    (by norm_num [clampQ, min_def, max_def, round1, roundHE])
  have h := ((hcl _ hgen _ (List.mem_singleton_self _)).2).2
  norm_num [clampQ, min_def, max_def, round1, roundHE] at h

/-! ### Claim C9: only the standard counts matter -/

lemma calculate_density_count_congr {g1 g2 : TroxlerGaugeSimulator}
    (hD : g1.std_density_count = g2.std_density_count)
    (d w : ℝ) (depth : String) (t : ℝ) (s : String) (gd gauss : ℝ) (j : ℤ) :
    calculate_density_count g1 d w depth t s gd gauss j =
      calculate_density_count g2 d w depth t s gd gauss j := by
  simp only [calculate_density_count, density_count_core, density_base_params, hD]

lemma calculate_moisture_count_congr {g1 g2 : TroxlerGaugeSimulator}
    (hM : g1.std_moisture_count = g2.std_moisture_count)
    (m t : ℝ) (s : String) (gauss : ℝ) (j : ℤ) :
    calculate_moisture_count g1 m t s gauss j =
      calculate_moisture_count g2 m t s gauss j := by
  simp only [calculate_moisture_count, moisture_count_core, moisture_base, hM]

lemma buildRecords_congr {g1 g2 : TroxlerGaugeSimulator}
    (hD : g1.std_density_count = g2.std_density_count)
    (hM : g1.std_moisture_count = g2.std_moisture_count)
    (mdd : ℚ) (depth : String) (t : ℝ) (s : String) (gd : ℝ)
    (cr : ℕ → ℝ × ℤ × ℝ × ℤ) :
    ∀ (cs ms : List ℚ) (i : ℕ),
      buildRecords g1 mdd depth t s gd cr i cs ms =
        buildRecords g2 mdd depth t s gd cr i cs ms := by
  intro cs
  induction cs with
  | nil => intro ms i; rfl
  | cons c cs ih =>
    intro ms i
    cases ms with
    | nil => rfl
    | cons m ms =>
      simp only [buildRecords]
      rw [calculate_density_count_congr hD, calculate_moisture_count_congr hM, ih ms (i + 1)]

/-- Claim C9: two simulator instances that agree on the two standard-count
values (and so may differ arbitrarily in the `model` and `serial_number`
labels, and in the fixed calibration date) produce identical density readings,
moisture readings, and batches for the same inputs and random draws: the label
fields never influence any calculation. -/
theorem c9_labels_immaterial (g1 g2 : TroxlerGaugeSimulator)
    (hD : g1.std_density_count = g2.std_density_count)
    (hM : g1.std_moisture_count = g2.std_moisture_count)
    (d w : ℝ) (depth : String) (t : ℝ) (s : String) (gd gauss : ℝ) (j : ℤ)
    (m gauss2 : ℝ) (j2 : ℤ) (mdd opt : ℚ) (n : ℕ) (cn cu mn mu : ℕ → ℚ)
    (cr : ℕ → ℝ × ℤ × ℝ × ℤ) (fuel : ℕ) :
    calculate_density_count g1 d w depth t s gd gauss j =
      calculate_density_count g2 d w depth t s gd gauss j ∧
    calculate_moisture_count g1 m t s gauss2 j2 =
      calculate_moisture_count g2 m t s gauss2 j2 ∧
    generate_sample_tests g1 mdd opt n depth t s gd cn cu mn mu cr fuel =
      generate_sample_tests g2 mdd opt n depth t s gd cn cu mn mu cr fuel := by
  refine ⟨calculate_density_count_congr hD d w depth t s gd gauss j,
    calculate_moisture_count_congr hM m t s gauss2 j2, ?_⟩
  simp only [generate_sample_tests, buildRecords_congr hD hM mdd depth t s gd cr]

theorem c9_labels_immaterial_witness :
    calculate_density_count ⟨"3440", "12345", "2024-09-15", 1570, 670⟩ 100 110 "DS" 1
        "CL (Lean clay)" 8 1 0 =
      calculate_density_count ⟨"4640", "99999", "2024-09-15", 1570, 670⟩ 100 110 "DS" 1
        "CL (Lean clay)" 8 1 0 ∧
    calculate_moisture_count ⟨"3440", "12345", "2024-09-15", 1570, 670⟩ 10 1
        "CL (Lean clay)" 1 0 =
      calculate_moisture_count ⟨"4640", "99999", "2024-09-15", 1570, 670⟩ 10 1
        "CL (Lean clay)" 1 0 ∧
    generate_sample_tests ⟨"3440", "12345", "2024-09-15", 1570, 670⟩ 120 8 2 "DS" 1
        "CL (Lean clay)" 8 (fun _ => 96) (fun _ => 0) (fun _ => 8) (fun _ => 0)
        (fun _ => (1, 0, 1, 0)) 5 =
      generate_sample_tests ⟨"4640", "99999", "2024-09-15", 1570, 670⟩ 120 8 2 "DS" 1
        "CL (Lean clay)" 8 (fun _ => 96) (fun _ => 0) (fun _ => 8) (fun _ => 0)
        (fun _ => (1, 0, 1, 0)) 5 :=
  c9_labels_immaterial ⟨"3440", "12345", "2024-09-15", 1570, 670⟩
    ⟨"4640", "99999", "2024-09-15", 1570, 670⟩ rfl rfl 100 110 "DS" 1
    "CL (Lean clay)" 8 1 0 10 1 0 120 8 2
    (fun _ => 96) (fun _ => 0) (fun _ => 8) (fun _ => 0) (fun _ => (1, 0, 1, 0)) 5
